import Mathlib

/-!
Shallow embedding of the Cloudflare image-optimization worker
(`imageApp` and its helpers: `parseTransformOptions`, `getResponsiveWidth`,
the `/cdn-cgi/image/:options/*` handler with its fallback catch block,
and the output-format negotiation).

JavaScript numbers are modelled as exact rationals plus NaN and signed
infinity (IEEE-754 rounding of doubles is not modelled; none of the
verified properties depends on rounding).  Headers are modelled as an
association list where `set` replaces any existing entry with the same
name (header-name case normalization is not modelled; the source uses
each name with a single consistent casing).
-/

namespace ImgWorker

/-- A JavaScript number: NaN, signed infinity, or a finite value. -/
inductive JSNum where
  | nan : JSNum
  | inf (neg : Bool) : JSNum
  | num (q : ℚ) : JSNum
deriving DecidableEq, Repr

/-- Embed an integer as a JavaScript number. -/
def intToJS (n : Int) : JSNum := JSNum.num (n : ℚ)

/-- JavaScript truthiness of a number: NaN and 0 are falsy. -/
def truthyN : JSNum → Bool
  | JSNum.nan => false
  | JSNum.inf _ => true
  | JSNum.num q => decide (q ≠ 0)

/-- JavaScript truthiness of a possibly-undefined number. -/
def truthyO : Option JSNum → Bool
  | none => false
  | some n => truthyN n

/-- JavaScript truthiness of a possibly-undefined string: undefined and
the empty string are falsy. -/
def truthyS : Option String → Bool
  | none => false
  | some s => decide (s ≠ "")

/-- Whitespace characters skipped by JavaScript numeric parsing. -/
def isWsChar (c : Char) : Bool :=
  c = ' ' || c = '\t' || c = '\n' || c = '\r' || c = '\x0b' || c = '\x0c'

/-- Hexadecimal digit test. -/
def isHexDigit (c : Char) : Bool :=
  c.isDigit || ('a' ≤ c && c ≤ 'f') || ('A' ≤ c && c ≤ 'F')

/-- Value of a decimal digit string (most significant first). -/
def digitsToNat (ds : List Char) : Nat :=
  ds.foldl (fun a c => a * 10 + (c.toNat - 48)) 0

/-- Value of a single hexadecimal digit. -/
def hexVal (c : Char) : Nat :=
  if c.isDigit then c.toNat - 48
  else if 'a' ≤ c && c ≤ 'f' then c.toNat - 87
  else c.toNat - 55

/-- Value of a hexadecimal digit string (most significant first). -/
def hexToNat (ds : List Char) : Nat :=
  ds.foldl (fun a c => a * 16 + hexVal c) 0

/-- Checks that the second list is a leading segment of the first. -/
def leadsWith : List Char → List Char → Bool
  | _, [] => true
  | [], _ :: _ => false
  | h :: t, a :: b => h = a && leadsWith t b

/-- Substring test, the model of JavaScript `String.prototype.includes`. -/
def strContainsL : List Char → List Char → Bool
  | [], needle => needle.isEmpty
  | h :: t, needle => leadsWith (h :: t) needle || strContainsL t needle

/-- Substring test on strings. -/
def strContains (hay needle : String) : Bool :=
  strContainsL hay.data needle.data

/-- Case-insensitive substring test, the model of a case-insensitive
alternative-free regular-expression fragment test (both sides lowered
character by character). -/
def containsCI (hay needle : String) : Bool :=
  strContainsL (hay.data.map Char.toLower) (needle.data.map Char.toLower)

/-- Split on a single character, keeping empty fragments: the model of
JavaScript `String.prototype.split` with a one-character separator. -/
def splitChars (sep : Char) : List Char → List Char → List (List Char)
  | [], acc => [acc.reverse]
  | c :: rest, acc =>
    if c = sep then acc.reverse :: splitChars sep rest []
    else splitChars sep rest (c :: acc)

/-- String-level split on a single character. -/
def splitStr (s : String) (sep : Char) : List String :=
  (splitChars sep s.data []).map String.mk

/-- Core of JavaScript `parseInt(value)` (radix unspecified): skip
whitespace, optional sign, `0x`/`0X` prefix selects hexadecimal, else
the longest decimal-digit run; no digits means NaN (`none`). -/
def parseIntCore (s : String) : Option Int :=
  let cs := s.data.dropWhile isWsChar
  let signed : Int × List Char :=
    match cs with
    | '-' :: r => (-1, r)
    | '+' :: r => (1, r)
    | _ => (1, cs)
  let sgn := signed.1
  let cs := signed.2
  match cs with
  | '0' :: c :: r =>
    if c = 'x' || c = 'X' then
      let ds := r.takeWhile isHexDigit
      if ds.isEmpty then none else some (sgn * (hexToNat ds : Int))
    else
      some (sgn * (digitsToNat (('0' :: c :: r).takeWhile Char.isDigit) : Int))
  | _ =>
    let ds := cs.takeWhile Char.isDigit
    if ds.isEmpty then none else some (sgn * (digitsToNat ds : Int))

/-- The model of JavaScript `parseInt(value)`. -/
def parseIntJS (s : String) : JSNum :=
  match parseIntCore s with
  | none => JSNum.nan
  | some n => intToJS n

/-- The model of JavaScript `parseFloat(value)`: skip whitespace,
optional sign, `Infinity`, or decimal digits with optional fraction and
exponent; no valid numeric head means NaN. -/
def parseFloatJS (s : String) : JSNum :=
  let cs := s.data.dropWhile isWsChar
  let signed : ℚ × List Char :=
    match cs with
    | '-' :: r => (-1, r)
    | '+' :: r => (1, r)
    | _ => (1, cs)
  let sgn := signed.1
  let cs := signed.2
  if leadsWith cs "Infinity".data then JSNum.inf (decide (sgn < 0))
  else
    let ip := cs.takeWhile Char.isDigit
    let r1 := cs.dropWhile Char.isDigit
    let fpPair : List Char × List Char :=
      match r1 with
      | '.' :: r => (r.takeWhile Char.isDigit, r.dropWhile Char.isDigit)
      | _ => ([], r1)
    let fp := fpPair.1
    let r2 := fpPair.2
    if ip.isEmpty && fp.isEmpty then JSNum.nan
    else
      let mant : ℚ := (digitsToNat ip : ℚ) + (digitsToNat fp : ℚ) / ((10 : ℚ) ^ fp.length)
      let ex : Int :=
        match r2 with
        | 'e' :: r | 'E' :: r =>
          let esigned : Int × List Char :=
            match r with
            | '-' :: rr => (-1, rr)
            | '+' :: rr => (1, rr)
            | _ => (1, r)
          let eds := esigned.2.takeWhile Char.isDigit
          if eds.isEmpty then 0 else esigned.1 * (digitsToNat eds : Int)
        | _ => 0
      JSNum.num (sgn * mant * (10 : ℚ) ^ ex)

/-- The `ImageTransformOptions` interface of the worker: every field is
optional before defaulting.  Numeric fields hold JavaScript numbers,
string-typed fields hold the raw token. -/
structure ImageTransformOptions where
  width : Option JSNum := none
  height : Option JSNum := none
  quality : Option JSNum := none
  format : Option String := none
  fit : Option String := none
  gravity : Option String := none
  background : Option String := none
  blur : Option JSNum := none
  brightness : Option JSNum := none
  contrast : Option JSNum := none
  gamma : Option JSNum := none
  sharpen : Option JSNum := none
deriving DecidableEq, Repr

/-- `URLSearchParams` modelled as an association list; `get` returns the
first value for a name. -/
def spGet (sp : List (String × String)) (k : String) : Option String :=
  (sp.find? (fun p => p.1 == k)).map (fun p => p.2)

/-- The key of a `key=value` fragment: the head of the `=`-split. -/
def pairKey (p : String) : String :=
  (splitStr p '=').headD ""

/-- The value of a `key=value` fragment: the second component of the
`=`-split, `none` when there is no `=` (JavaScript destructuring yields
`undefined` there). -/
def pairValue (p : String) : Option String :=
  (splitStr p '=')[1]?

/-- The guarded switch of the `transformPairs.forEach` body: drop the
pair unless both key and value are truthy (`if (key && value)`), then
dispatch on the recognized keys. -/
def applyKV (o : ImageTransformOptions) (key value : String) : ImageTransformOptions :=
  if key = "" ∨ value = "" then o
  else if key = "width" ∨ key = "w" then { o with width := some (parseIntJS value) }
  else if key = "height" ∨ key = "h" then { o with height := some (parseIntJS value) }
  else if key = "quality" ∨ key = "q" then { o with quality := some (parseIntJS value) }
  else if key = "format" ∨ key = "f" then { o with format := some value }
  else if key = "fit" then { o with fit := some value }
  else if key = "gravity" ∨ key = "g" then { o with gravity := some value }
  else if key = "background" ∨ key = "bg" then { o with background := some value }
  else if key = "blur" then { o with blur := some (parseIntJS value) }
  else if key = "brightness" then { o with brightness := some (parseFloatJS value) }
  else if key = "contrast" then { o with contrast := some (parseFloatJS value) }
  else if key = "gamma" then { o with gamma := some (parseFloatJS value) }
  else if key = "sharpen" then { o with sharpen := some (parseFloatJS value) }
  else o

/-- One iteration of the `transformPairs.forEach` body of
`parseTransformOptions`: split the pair on `=`, then apply the guarded
switch.  An absent value is `undefined`, falsy exactly like the empty
string, so it is modelled as `""`. -/
def applyTransformPair (o : ImageTransformOptions) (pair : String) : ImageTransformOptions :=
  applyKV o (pairKey pair) ((pairValue pair).getD "")

/-- The keys the parser's switch recognizes. -/
def recognizedKey (k : String) : Bool :=
  k = "width" || k = "w" || k = "height" || k = "h" || k = "quality" || k = "q" ||
  k = "format" || k = "f" || k = "fit" || k = "gravity" || k = "g" ||
  k = "background" || k = "bg" || k = "blur" || k = "brightness" ||
  k = "contrast" || k = "gamma" || k = "sharpen"

/-- A `key=value` fragment the parser silently drops: empty key, absent
or empty value, or an unrecognized key. -/
def droppedPair (p : String) : Bool :=
  pairKey p = "" || (pairValue p).getD "" = "" || !(recognizedKey (pairKey p))

/-- The comma-split-and-fold part of `parseTransformOptions`:
`transformString.split(',').filter(Boolean)` folded with the pair
handler over the empty options object. -/
def foldPairs (t : String) : ImageTransformOptions :=
  ((splitStr t ',').filter (fun x => x ≠ "")).foldl applyTransformPair {}

/-- The individual-query-parameter overrides of `parseTransformOptions`
(`width`, `height`, `quality`, `format`). -/
def applyQuery (o : ImageTransformOptions) (sp : List (String × String)) : ImageTransformOptions :=
  { o with
    width := match spGet sp "width" with
      | some v => some (parseIntJS v)
      | none => o.width
    height := match spGet sp "height" with
      | some v => some (parseIntJS v)
      | none => o.height
    quality := match spGet sp "quality" with
      | some v => some (parseIntJS v)
      | none => o.quality
    format := match spGet sp "format" with
      | some v => some v
      | none => o.format }

/-- The defaulting tail of `parseTransformOptions`: falsy `quality`,
`format`, `fit` are replaced by 85, `auto`, `scale-down`. -/
def applyDefaults (o : ImageTransformOptions) : ImageTransformOptions :=
  { o with
    quality := if truthyO o.quality then o.quality else some (intToJS 85)
    format := if truthyS o.format then o.format else some "auto"
    fit := if truthyS o.fit then o.fit else some "scale-down" }

/-- The worker's `parseTransformOptions(searchParams)`. -/
def parseTransformOptions (sp : List (String × String)) : ImageTransformOptions :=
  applyDefaults (applyQuery (foldPairs ((spGet sp "transform").getD "")) sp)

/-- Parsing a bare path option string, as the handler does via
`searchParams.set('transform', options)`. -/
def parsePath (s : String) : ImageTransformOptions :=
  parseTransformOptions [("transform", s)]

/-- The mobile-pattern test `/Mobile|Android|iPhone|iPad/i.test(ua)`. -/
def isMobileUA (ua : String) : Bool :=
  containsCI ua "Mobile" || containsCI ua "Android" || containsCI ua "iPhone" || containsCI ua "iPad"

/-- The tablet-pattern test `/iPad|Tablet/i.test(ua)`. -/
def isTabletUA (ua : String) : Bool :=
  containsCI ua "iPad" || containsCI ua "Tablet"

/-- The worker's `getResponsiveWidth(userAgent, requestedWidth)`. -/
def getResponsiveWidth (userAgent : String) (requestedWidth : Option JSNum) : JSNum :=
  if truthyO requestedWidth then requestedWidth.getD JSNum.nan
  else if isMobileUA userAgent && !isTabletUA userAgent then intToJS 320
  else if isTabletUA userAgent then intToJS 768
  else intToJS 1200

/-- The directive the handler actually uses: path options parsed via a
fresh `URLSearchParams` holding only `transform`, then the width
overwritten by the responsive width whenever the raw option string
contains the literal `width=auto`. -/
def resolvedOptions (options : String) (userAgent : Option String) : ImageTransformOptions :=
  let opts := parsePath options
  if strContains options "width=auto" then
    { opts with width := some (getResponsiveWidth (userAgent.getD "") none) }
  else opts

/-- One operation applied to the `IMAGES` transformable, recording the
arguments the worker passes. -/
inductive ImageOp where
  | resize (width height : Option JSNum) (fit : Option String) : ImageOp
  | blur (v : JSNum) : ImageOp
  | brightness (v : JSNum) : ImageOp
  | contrast (v : JSNum) : ImageOp
  | gamma (v : JSNum) : ImageOp
  | sharpen (v : JSNum) : ImageOp
deriving DecidableEq, Repr

/-- The kind of a pipeline operation, for ordering statements. -/
inductive OpKind where
  | resizeK | blurK | brightnessK | contrastK | gammaK | sharpenK
deriving DecidableEq, Repr

/-- Kind of an operation. -/
def kindOf : ImageOp → OpKind
  | ImageOp.resize _ _ _ => OpKind.resizeK
  | ImageOp.blur _ => OpKind.blurK
  | ImageOp.brightness _ => OpKind.brightnessK
  | ImageOp.contrast _ => OpKind.contrastK
  | ImageOp.gamma _ => OpKind.gammaK
  | ImageOp.sharpen _ => OpKind.sharpenK

/-- The sequence of operations the handler applies to the transformable
(lines building `transformedImage`): resize when width or height is
truthy (the resize options include each of width/height/fit only when
truthy), then blur when truthy, then brightness/contrast/gamma/sharpen
whenever defined (strict `!== undefined` checks). -/
def pipelineTrace (o : ImageTransformOptions) : List ImageOp :=
  (if truthyO o.width || truthyO o.height then
    [ImageOp.resize (if truthyO o.width then o.width else none)
      (if truthyO o.height then o.height else none)
      (if truthyS o.fit then o.fit else none)]
   else []) ++
  (if truthyO o.blur then [ImageOp.blur (o.blur.getD JSNum.nan)] else []) ++
  (if o.brightness.isSome then [ImageOp.brightness (o.brightness.getD JSNum.nan)] else []) ++
  (if o.contrast.isSome then [ImageOp.contrast (o.contrast.getD JSNum.nan)] else []) ++
  (if o.gamma.isSome then [ImageOp.gamma (o.gamma.getD JSNum.nan)] else []) ++
  (if o.sharpen.isSome then [ImageOp.sharpen (o.sharpen.getD JSNum.nan)] else [])

/-- The output-format branch of the handler: `format === 'auto'` selects
by the Accept header (avif, then webp, then jpeg); a truthy non-`auto`
format maps to `image/<format>`. -/
def outputFormat (fmt : Option String) (accept : String) : Option String :=
  if fmt = some "auto" then
    if strContains accept "image/avif" then some "image/avif"
    else if strContains accept "image/webp" then some "image/webp"
    else some "image/jpeg"
  else
    match fmt with
    | some f => if f = "" then none else some ("image/" ++ f)
    | none => none

/-- The `outputOptions` object passed to `.output(...)`. -/
structure OutputOptions where
  quality : Option JSNum
  format : Option String
deriving DecidableEq, Repr

/-- Decimal rendering of a rational, the model of JavaScript number
stringification for the values produced by the parsers (which always
have a power-of-ten denominator). -/
def ratLit (q : ℚ) : String :=
  if q.den = 1 then
    (if q.num < 0 then "-" else "") ++ toString q.num.natAbs
  else
    match (List.range 40).find? (fun k => (10 ^ k) % q.den = 0) with
    | some k =>
      let scaled : Nat := q.num.natAbs * ((10 ^ k) / q.den)
      let ip := scaled / 10 ^ k
      let fs := toString (scaled % 10 ^ k)
      let padded := List.replicate (k - fs.length) '0' ++ fs.data
      let frac := (padded.reverse.dropWhile (fun c => c = '0')).reverse
      (if q.num < 0 then "-" else "") ++ toString ip ++
        (if frac.isEmpty then "" else "." ++ String.mk frac)
    | none => (if q.num < 0 then "-" else "") ++ toString q.num.natAbs ++ "/" ++ toString q.den

/-- JSON literal of a JavaScript number (`JSON.stringify` renders NaN
and infinities as `null`). -/
def numLit : JSNum → String
  | JSNum.nan => "null"
  | JSNum.inf _ => "null"
  | JSNum.num q => ratLit q

/-- JSON string literal (escaping inside the token is not modelled; the
values here are URL path tokens). -/
def strLit (s : String) : String := "\"" ++ s ++ "\""

/-- The model of `JSON.stringify(transformOptions)`: defined fields in
declaration order (`JSON.stringify` uses property insertion order; the
embedding fixes the field order instead, which no verified property
depends on). -/
def encodeOptions (o : ImageTransformOptions) : String :=
  let fields : List (Option String) :=
    [ o.width.map (fun v => strLit "width" ++ ":" ++ numLit v),
      o.height.map (fun v => strLit "height" ++ ":" ++ numLit v),
      o.quality.map (fun v => strLit "quality" ++ ":" ++ numLit v),
      o.format.map (fun v => strLit "format" ++ ":" ++ strLit v),
      o.fit.map (fun v => strLit "fit" ++ ":" ++ strLit v),
      o.gravity.map (fun v => strLit "gravity" ++ ":" ++ strLit v),
      o.background.map (fun v => strLit "background" ++ ":" ++ strLit v),
      o.blur.map (fun v => strLit "blur" ++ ":" ++ numLit v),
      o.brightness.map (fun v => strLit "brightness" ++ ":" ++ numLit v),
      o.contrast.map (fun v => strLit "contrast" ++ ":" ++ numLit v),
      o.gamma.map (fun v => strLit "gamma" ++ ":" ++ numLit v),
      o.sharpen.map (fun v => strLit "sharpen" ++ ":" ++ numLit v) ]
  "\x7b" ++ String.intercalate "," (fields.filterMap id) ++ "\x7d"

/-- Headers as an association list.  `hset` models `Headers.set`: it
replaces any existing entry with the same name. -/
def hset (hs : List (String × String)) (k v : String) : List (String × String) :=
  hs.filter (fun p => p.1 != k) ++ [(k, v)]

/-- Header lookup, the model of `Headers.get`. -/
def hget (hs : List (String × String)) (k : String) : Option String :=
  (hs.find? (fun p => p.1 == k)).map (fun p => p.2)

/-- An R2 object: its bytes (opaque, modelled as a string) and the
headers `writeHttpMetadata` writes. -/
structure R2Object where
  body : String
  httpMetadata : List (String × String)
deriving DecidableEq, Repr

/-- Outcome of one `R2_IMAGES.get` call: the object, `null`, or a
thrown error. -/
inductive FetchResult where
  | found (o : R2Object) : FetchResult
  | absent : FetchResult
  | error : FetchResult
deriving DecidableEq, Repr

/-- The environment of one request: the bucket (indexed by the call
number, so the primary fetch and the fallback re-fetch may observe
different outcomes), whether the transform/encode section throws, and
the status/headers of the `result.response()` the images binding
returns on success. -/
structure Env where
  r2get : Nat → String → FetchResult
  imagesThrow : Bool
  imagesRespStatus : Nat
  imagesRespHeaders : List (String × String)

/-- The request as the handler observes it.  `queryParams` carries the
request's query string; the source handler never reads it (it builds a
fresh `URLSearchParams` holding only the path options). -/
structure Request where
  optionsParam : Option String
  imagePath : Option String
  userAgent : Option String
  accept : Option String
  queryParams : List (String × String)

/-- A response body: a `c.text` body, raw R2 bytes, or the encoded
output of the transform pipeline. -/
inductive BodyTag where
  | text (s : String) : BodyTag
  | bytes (b : String) : BodyTag
  | transformed (trace : List ImageOp) (out : OutputOptions) : BodyTag
deriving DecidableEq, Repr

/-- An HTTP response. -/
structure HttpResponse where
  status : Nat
  headers : List (String × String)
  body : BodyTag
deriving DecidableEq, Repr

/-- The catch block of the handler: re-fetch the same object key and
serve the original bytes with conservative cache headers, else 500.
(The `none` arm is unreachable: the 400 return precedes anything that
can throw.) -/
def fallbackResponse (env : Env) (req : Request) : HttpResponse :=
  match req.imagePath with
  | none => { status := 500, headers := [], body := BodyTag.text "Image processing failed" }
  | some p =>
    match env.r2get 1 p with
    | FetchResult.found o =>
      { status := 200
        headers := hset (hset o.httpMetadata "Cache-Control" "public, max-age=3600") "X-Fallback" "original-r2"
        body := BodyTag.bytes o.body }
    | FetchResult.absent => { status := 500, headers := [], body := BodyTag.text "Image processing failed" }
    | FetchResult.error => { status := 500, headers := [], body := BodyTag.text "Image processing failed" }

/-- The `/cdn-cgi/image/:options/*` handler.  (The `c.text` content-type
header and the surrounding cache middleware are not modelled.) -/
def handler (env : Env) (req : Request) : HttpResponse :=
  let options := req.optionsParam.getD ""
  match req.imagePath with
  | none => { status := 400, headers := [], body := BodyTag.text "Image path required" }
  | some imagePath =>
    if imagePath = "" then
      { status := 400, headers := [], body := BodyTag.text "Image path required" }
    else
      let opts := resolvedOptions options req.userAgent
      match env.r2get 0 imagePath with
      | FetchResult.absent => { status := 404, headers := [], body := BodyTag.text "Image not found" }
      | FetchResult.error => fallbackResponse env req
      | FetchResult.found _ =>
        if env.imagesThrow then fallbackResponse env req
        else
          { status := env.imagesRespStatus
            headers :=
              hset (hset (hset (hset env.imagesRespHeaders
                "Cache-Control" "public, max-age=86400, s-maxage=31536000")
                "X-Image-Optimized" "true")
                "X-Transform-Options" (encodeOptions opts))
                "Vary" "Accept, User-Agent"
            body := BodyTag.transformed (pipelineTrace opts)
              { quality := opts.quality, format := outputFormat opts.format (req.accept.getD "") } }

/-! Helper lemmas. -/

/-- A search-params list holding only the `transform` entry provides no
individual query parameters, so the query-override stage is a no-op. -/
theorem applyQuery_pathOnly (o : ImageTransformOptions) (s : String) :
    applyQuery o [("transform", s)] = o := rfl

/-- The integer parser yields NaN or an integer. -/
theorem parseIntJS_cases (v : String) :
    parseIntJS v = JSNum.nan ∨ ∃ n : Int, parseIntJS v = intToJS n := by
  unfold parseIntJS
  cases parseIntCore v with
  | none => exact Or.inl rfl
  | some n => exact Or.inr ⟨n, rfl⟩

/-- Dropping the entries for one header name does not affect the first
match for a different name. -/
theorem find?_filter_other (l : List (String × String)) (k k' : String)
    (hne : k' ≠ k) :
    List.find? (fun p => p.1 == k') (l.filter (fun p => p.1 != k)) =
      List.find? (fun p => p.1 == k') l := by
  induction l with
  | nil => rfl
  | cons x t ih =>
    rw [List.filter_cons]
    by_cases hh : x.1 = k'
    · have hq : (x.1 != k) = true := by
        simp [bne, hh, hne]
      have hp : (x.1 == k') = true := by
        simp [hh]
      rw [if_pos hq]
      simp only [List.find?_cons, hp]
    · have hp : (x.1 == k') = false := by
        simp [hh]
      by_cases hq : (x.1 != k) = true
      · rw [if_pos hq]
        simp only [List.find?_cons, hp]
        exact ih
      · rw [if_neg hq]
        simp only [List.find?_cons, hp]
        exact ih

/-- Setting a header makes it retrievable with that value. -/
theorem hget_hset_self (hs : List (String × String)) (k v : String) :
    hget (hset hs k v) k = some v := by
  unfold hget hset
  rw [List.find?_append]
  have h1 : List.find? (fun p => p.1 == k) (hs.filter (fun p => p.1 != k)) = none := by
    rw [List.find?_eq_none]
    intro x hx
    have := List.of_mem_filter hx
    simp only [bne] at this
    simpa using this
  have h2 : List.find? (fun p => p.1 == k) [(k, v)] = some (k, v) := by
    apply List.find?_cons_of_pos
    simp
  rw [h1, h2]
  rfl

/-- Setting a header leaves other headers unchanged. -/
theorem hget_hset_ne (hs : List (String × String)) (k k' v : String)
    (hne : k' ≠ k) :
    hget (hset hs k v) k' = hget hs k' := by
  unfold hget hset
  rw [List.find?_append, find?_filter_other hs k k' hne]
  have h2 : List.find? (fun p => p.1 == k') [(k, v)] = none := by
    apply List.find?_eq_none.mpr
    intro x hx
    simp only [List.mem_singleton] at hx
    subst hx
    simpa using fun h => hne h.symm
  rw [h2]
  cases List.find? (fun p => p.1 == k') hs <;> rfl

/-- Membership in a conditional singleton forces the element. -/
theorem mem_ite_single {α : Type} {c : Prop} [Decidable c] {a x : α}
    (h : a ∈ (if c then [x] else [])) : a = x := by
  split at h
  · simpa using h
  · simp at h

/-- A conditional singleton is a sublist of the singleton. -/
theorem ite_single_sub {α : Type} (c : Prop) [Decidable c] (a : α) :
    List.Sublist (if c then [a] else []) [a] := by
  split
  · exact List.Sublist.refl _
  · exact List.nil_sublist _

/-- A falsy key or value makes the switch a no-op. -/
theorem applyKV_empty (o : ImageTransformOptions) (key value : String)
    (h : key = "" ∨ value = "") : applyKV o key value = o := by
  unfold applyKV
  rw [if_pos h]

/-- An unrecognized key makes the switch a no-op. -/
theorem applyKV_unrecognized (o : ImageTransformOptions) (key value : String)
    (h : recognizedKey key = false) : applyKV o key value = o := by
  unfold recognizedKey at h
  simp only [Bool.or_eq_false_iff, decide_eq_false_iff_not, and_assoc] at h
  obtain ⟨h1, h2, h3, h4, h5, h6, h7, h8, h9, h10, h11, h12, h13, h14, h15, h16, h17, h18⟩ := h
  unfold applyKV
  by_cases h0 : key = "" ∨ value = ""
  · rw [if_pos h0]
  · rw [if_neg h0, if_neg (not_or.mpr ⟨h1, h2⟩), if_neg (not_or.mpr ⟨h3, h4⟩),
      if_neg (not_or.mpr ⟨h5, h6⟩), if_neg (not_or.mpr ⟨h7, h8⟩), if_neg h9,
      if_neg (not_or.mpr ⟨h10, h11⟩), if_neg (not_or.mpr ⟨h12, h13⟩), if_neg h14,
      if_neg h15, if_neg h16, if_neg h17, if_neg h18]

/-- A dropped `key=value` fragment leaves the options unchanged. -/
theorem applyTransformPair_dropped (o : ImageTransformOptions) (p : String)
    (h : droppedPair p = true) : applyTransformPair o p = o := by
  unfold droppedPair at h
  simp only [Bool.or_eq_true, decide_eq_true_eq, Bool.not_eq_true'] at h
  unfold applyTransformPair
  rcases h with (h | h) | h
  · exact applyKV_empty _ _ _ (Or.inl h)
  · exact applyKV_empty _ _ _ (Or.inr h)
  · exact applyKV_unrecognized _ _ _ h

/-- The switch either keeps the quality field or stores a parsed
integer. -/
theorem applyKV_quality (o : ImageTransformOptions) (key value : String) :
    (applyKV o key value).quality = o.quality ∨
      (applyKV o key value).quality = some (parseIntJS value) := by
  unfold applyKV
  by_cases h0 : key = "" ∨ value = ""
  · rw [if_pos h0]
    exact Or.inl rfl
  rw [if_neg h0]
  by_cases h1 : key = "width" ∨ key = "w"
  · rw [if_pos h1]
    exact Or.inl rfl
  rw [if_neg h1]
  by_cases h2 : key = "height" ∨ key = "h"
  · rw [if_pos h2]
    exact Or.inl rfl
  rw [if_neg h2]
  by_cases h3 : key = "quality" ∨ key = "q"
  · rw [if_pos h3]
    exact Or.inr rfl
  rw [if_neg h3]
  by_cases h4 : key = "format" ∨ key = "f"
  · rw [if_pos h4]
    exact Or.inl rfl
  rw [if_neg h4]
  by_cases h5 : key = "fit"
  · rw [if_pos h5]
    exact Or.inl rfl
  rw [if_neg h5]
  by_cases h6 : key = "gravity" ∨ key = "g"
  · rw [if_pos h6]
    exact Or.inl rfl
  rw [if_neg h6]
  by_cases h7 : key = "background" ∨ key = "bg"
  · rw [if_pos h7]
    exact Or.inl rfl
  rw [if_neg h7]
  by_cases h8 : key = "blur"
  · rw [if_pos h8]
    exact Or.inl rfl
  rw [if_neg h8]
  by_cases h9 : key = "brightness"
  · rw [if_pos h9]
    exact Or.inl rfl
  rw [if_neg h9]
  by_cases h10 : key = "contrast"
  · rw [if_pos h10]
    exact Or.inl rfl
  rw [if_neg h10]
  by_cases h11 : key = "gamma"
  · rw [if_pos h11]
    exact Or.inl rfl
  rw [if_neg h11]
  by_cases h12 : key = "sharpen"
  · rw [if_pos h12]
    exact Or.inl rfl
  rw [if_neg h12]
  exact Or.inl rfl

/-- The quality field is always absent, NaN, or an integer. -/
def qualInv (o : ImageTransformOptions) : Prop :=
  o.quality = none ∨ o.quality = some JSNum.nan ∨ ∃ n : Int, o.quality = some (intToJS n)

/-- One parsing step preserves the quality invariant. -/
theorem applyTransformPair_qualInv (o : ImageTransformOptions) (p : String)
    (h : qualInv o) : qualInv (applyTransformPair o p) := by
  unfold applyTransformPair
  rcases applyKV_quality o (pairKey p) ((pairValue p).getD "") with hq | hq
  · unfold qualInv at h ⊢
    rw [hq]
    exact h
  · rcases parseIntJS_cases ((pairValue p).getD "") with hi | ⟨n, hi⟩
    · exact Or.inr (Or.inl (by rw [hq, hi]))
    · exact Or.inr (Or.inr ⟨n, by rw [hq, hi]⟩)

/-- The pair fold preserves the quality invariant. -/
theorem foldl_qualInv (l : List String) (o : ImageTransformOptions)
    (h : qualInv o) : qualInv (l.foldl applyTransformPair o) := by
  induction l generalizing o with
  | nil => exact h
  | cons x t ih => exact ih _ (applyTransformPair_qualInv o x h)

/-- The path-only parse satisfies the quality invariant before
defaulting. -/
theorem foldPairs_qualInv (s : String) : qualInv (foldPairs s) :=
  foldl_qualInv _ _ (Or.inl rfl)

/-- Prepending a conditional singleton respects sublists. -/
theorem sub_cons_of_ite {α : Type} (c : Prop) [Decidable c] (a : α)
    {xs ys : List α} (h : List.Sublist xs ys) :
    List.Sublist ((if c then [a] else []) ++ xs) (a :: ys) := by
  split
  · exact List.Sublist.cons₂ a h
  · exact List.Sublist.cons a h

/-- The path-only parse goes through the fold and the defaults; the
query-override stage is a no-op. -/
theorem parsePath_eq (s : String) : parsePath s = applyDefaults (foldPairs s) := by
  unfold parsePath parseTransformOptions
  rw [applyQuery_pathOnly]
  rfl

/-- Quality after defaulting. -/
theorem applyDefaults_quality (o : ImageTransformOptions) :
    (applyDefaults o).quality = if truthyO o.quality then o.quality else some (intToJS 85) := rfl

/-- Format after defaulting. -/
theorem applyDefaults_format (o : ImageTransformOptions) :
    (applyDefaults o).format = if truthyS o.format then o.format else some "auto" := rfl

/-- Fit after defaulting. -/
theorem applyDefaults_fit (o : ImageTransformOptions) :
    (applyDefaults o).fit = if truthyS o.fit then o.fit else some "scale-down" := rfl

/-! Claim theorems. -/

/-- C4: for every input option string the parser succeeds; unrecognized
keys and value-less pairs are silently dropped, and quality 85, format
auto, fit scale-down are applied to any field the pairs left unset. -/
theorem parser_total_permissive_defaults (s : String) :
    (∀ (o : ImageTransformOptions) (p : String), droppedPair p = true → applyTransformPair o p = o)
    ∧ (parsePath s).quality.isSome = true
    ∧ (parsePath s).format.isSome = true
    ∧ (parsePath s).fit.isSome = true
    ∧ ((foldPairs s).quality = none → (parsePath s).quality = some (intToJS 85))
    ∧ ((foldPairs s).format = none → (parsePath s).format = some "auto")
    ∧ ((foldPairs s).fit = none → (parsePath s).fit = some "scale-down") := by
  refine ⟨applyTransformPair_dropped, ?_, ?_, ?_, ?_, ?_, ?_⟩
  · rw [parsePath_eq, applyDefaults_quality]
    by_cases h : truthyO (foldPairs s).quality = true
    · rw [if_pos h]
      cases hq : (foldPairs s).quality with
      | none => rw [hq] at h; exact absurd h (by simp [truthyO])
      | some v => rfl
    · rw [if_neg h]
      rfl
  · rw [parsePath_eq, applyDefaults_format]
    by_cases h : truthyS (foldPairs s).format = true
    · rw [if_pos h]
      cases hq : (foldPairs s).format with
      | none => rw [hq] at h; exact absurd h (by simp [truthyS])
      | some v => rfl
    · rw [if_neg h]
      rfl
  · rw [parsePath_eq, applyDefaults_fit]
    by_cases h : truthyS (foldPairs s).fit = true
    · rw [if_pos h]
      cases hq : (foldPairs s).fit with
      | none => rw [hq] at h; exact absurd h (by simp [truthyS])
      | some v => rfl
    · rw [if_neg h]
      rfl
  · intro h
    rw [parsePath_eq, applyDefaults_quality, h]
    rfl
  · intro h
    rw [parsePath_eq, applyDefaults_format, h]
    rfl
  · intro h
    rw [parsePath_eq, applyDefaults_fit, h]
    rfl

/-- C4 witness: a garbage option string parses with all defaults, and a
dropped pair is a no-op. -/
theorem parser_total_permissive_defaults_witness :
    applyTransformPair {} "bogus=3" = ({} : ImageTransformOptions)
    ∧ (parsePath "junk,width=,=5").quality = some (intToJS 85)
    ∧ (parsePath "junk,width=,=5").format = some "auto"
    ∧ (parsePath "junk,width=,=5").fit = some "scale-down" := by
  refine ⟨(parser_total_permissive_defaults "junk,width=,=5").1 {} "bogus=3" (by decide),
    (parser_total_permissive_defaults "junk,width=,=5").2.2.2.2.1 (by decide),
    (parser_total_permissive_defaults "junk,width=,=5").2.2.2.2.2.1 (by decide),
    (parser_total_permissive_defaults "junk,width=,=5").2.2.2.2.2.2 (by decide)⟩

/-- C10 counterexample: `quality=200` parses to quality 200, which lies
outside the range [1,100] — the parser never clamps. -/
theorem quality_range_cex :
    (parsePath "quality=200").quality = some (intToJS 200)
    ∧ ¬((200 : ℚ) ≤ 100) := by
  refine ⟨by decide, by norm_num⟩

/-- C10 amended: the parsed quality is always an integer, equal to 85
whenever the option pairs leave it unset (it is not clamped to
[1,100]). -/
theorem quality_integer_default (s : String) :
    (∃ n : Int, (parsePath s).quality = some (intToJS n))
    ∧ ((foldPairs s).quality = none → (parsePath s).quality = some (intToJS 85)) := by
  constructor
  · rw [parsePath_eq, applyDefaults_quality]
    rcases foldPairs_qualInv s with h | h | ⟨n, h⟩
    · exact ⟨85, by rw [h]; rfl⟩
    · exact ⟨85, by rw [h]; rfl⟩
    · by_cases hz : n = 0
      · subst hz
        exact ⟨85, by rw [h]; rfl⟩
      · refine ⟨n, ?_⟩
        rw [h]
        have ht : truthyO (some (intToJS n)) = true := by
          simp only [truthyO, truthyN, intToJS, decide_eq_true_eq]
          exact_mod_cast hz
        rw [if_pos ht]
  · intro h
    rw [parsePath_eq, applyDefaults_quality, h]
    rfl

/-- C10 amended witness: the empty option string defaults quality to
85, and `quality=7` parses to the integer 7. -/
theorem quality_integer_default_witness :
    (parsePath "").quality = some (intToJS 85)
    ∧ (parsePath "quality=7").quality = some (intToJS 7) := by
  refine ⟨(quality_integer_default "").2 (by decide), by decide⟩

/-- C5 counterexample: `brightness=xyz` does not leave the brightness
field unset — it stores NaN, and the pipeline then runs the brightness
step with NaN, unlike the empty option string. -/
theorem malformed_value_cex :
    (parsePath "brightness=xyz").brightness = some JSNum.nan
    ∧ (parsePath "").brightness = none
    ∧ pipelineTrace (parsePath "brightness=xyz") = [ImageOp.brightness JSNum.nan]
    ∧ pipelineTrace (parsePath "") = [] := by
  refine ⟨by decide, by decide, by decide, by decide⟩

/-- C5 amended: for every numeric key, a malformed (non-numeric) value
stores NaN in the field rather than leaving it unset.  A NaN width,
height or blur is inert — the trace equals the trace with the field
unset, because those guards test truthiness — and a NaN quality is
replaced by the default 85; but a NaN brightness, contrast, gamma or
sharpen still causes its filter step to run with NaN, because those
guards only test definedness. -/
theorem malformed_value_nan_behavior (o opts : ImageTransformOptions) (p key v : String)
    (hsplit : splitStr p '=' = [key, v]) (hv : v ≠ "")
    (hint : parseIntCore v = none) (hflt : parseFloatJS v = JSNum.nan) :
    ((key = "width" ∨ key = "w") → (applyTransformPair o p).width = some JSNum.nan)
    ∧ ((key = "height" ∨ key = "h") → (applyTransformPair o p).height = some JSNum.nan)
    ∧ ((key = "quality" ∨ key = "q") → (applyTransformPair o p).quality = some JSNum.nan)
    ∧ (key = "blur" → (applyTransformPair o p).blur = some JSNum.nan)
    ∧ (key = "brightness" → (applyTransformPair o p).brightness = some JSNum.nan)
    ∧ (key = "contrast" → (applyTransformPair o p).contrast = some JSNum.nan)
    ∧ (key = "gamma" → (applyTransformPair o p).gamma = some JSNum.nan)
    ∧ (key = "sharpen" → (applyTransformPair o p).sharpen = some JSNum.nan)
    ∧ (opts.width = some JSNum.nan →
        pipelineTrace opts = pipelineTrace { opts with width := none })
    ∧ (opts.height = some JSNum.nan →
        pipelineTrace opts = pipelineTrace { opts with height := none })
    ∧ (opts.blur = some JSNum.nan →
        pipelineTrace opts = pipelineTrace { opts with blur := none })
    ∧ (∀ s : String, (foldPairs s).quality = some JSNum.nan →
        (parsePath s).quality = some (intToJS 85))
    ∧ (opts.brightness = some JSNum.nan →
        ImageOp.brightness JSNum.nan ∈ pipelineTrace opts)
    ∧ (opts.contrast = some JSNum.nan →
        ImageOp.contrast JSNum.nan ∈ pipelineTrace opts)
    ∧ (opts.gamma = some JSNum.nan →
        ImageOp.gamma JSNum.nan ∈ pipelineTrace opts)
    ∧ (opts.sharpen = some JSNum.nan →
        ImageOp.sharpen JSNum.nan ∈ pipelineTrace opts) := by
  have happ : applyTransformPair o p = applyKV o key v := by
    unfold applyTransformPair pairKey pairValue
    rw [hsplit]
    rfl
  have hnanI : parseIntJS v = JSNum.nan := by
    unfold parseIntJS
    rw [hint]
  refine ⟨?_, ?_, ?_, ?_, ?_, ?_, ?_, ?_, ?_, ?_, ?_, ?_, ?_, ?_, ?_, ?_⟩
  · intro hk
    rw [happ]
    unfold applyKV
    rcases hk with h | h <;> subst h
    · rw [if_neg (by simp [hv]), if_pos (Or.inl rfl), hnanI]
    · rw [if_neg (by simp [hv]), if_pos (Or.inr rfl), hnanI]
  · intro hk
    rw [happ]
    unfold applyKV
    rcases hk with h | h <;> subst h
    · rw [if_neg (by simp [hv]), if_neg (by simp), if_pos (Or.inl rfl), hnanI]
    · rw [if_neg (by simp [hv]), if_neg (by simp), if_pos (Or.inr rfl), hnanI]
  · intro hk
    rw [happ]
    unfold applyKV
    rcases hk with h | h <;> subst h
    · rw [if_neg (by simp [hv]), if_neg (by simp), if_neg (by simp),
        if_pos (Or.inl rfl), hnanI]
    · rw [if_neg (by simp [hv]), if_neg (by simp), if_neg (by simp),
        if_pos (Or.inr rfl), hnanI]
  · intro hk
    subst hk
    rw [happ]
    unfold applyKV
    rw [if_neg (by simp [hv]), if_neg (by simp), if_neg (by simp), if_neg (by simp),
      if_neg (by simp), if_neg (by simp), if_neg (by simp), if_neg (by simp),
      if_pos rfl, hnanI]
  · intro hk
    subst hk
    rw [happ]
    unfold applyKV
    rw [if_neg (by simp [hv]), if_neg (by simp), if_neg (by simp), if_neg (by simp),
      if_neg (by simp), if_neg (by simp), if_neg (by simp), if_neg (by simp),
      if_neg (by simp), if_pos rfl, hflt]
  · intro hk
    subst hk
    rw [happ]
    unfold applyKV
    rw [if_neg (by simp [hv]), if_neg (by simp), if_neg (by simp), if_neg (by simp),
      if_neg (by simp), if_neg (by simp), if_neg (by simp), if_neg (by simp),
      if_neg (by simp), if_neg (by simp), if_pos rfl, hflt]
  · intro hk
    subst hk
    rw [happ]
    unfold applyKV
    rw [if_neg (by simp [hv]), if_neg (by simp), if_neg (by simp), if_neg (by simp),
      if_neg (by simp), if_neg (by simp), if_neg (by simp), if_neg (by simp),
      if_neg (by simp), if_neg (by simp), if_neg (by simp), if_pos rfl, hflt]
  · intro hk
    subst hk
    rw [happ]
    unfold applyKV
    rw [if_neg (by simp [hv]), if_neg (by simp), if_neg (by simp), if_neg (by simp),
      if_neg (by simp), if_neg (by simp), if_neg (by simp), if_neg (by simp),
      if_neg (by simp), if_neg (by simp), if_neg (by simp), if_neg (by simp),
      if_pos rfl, hflt]
  · intro h
    unfold pipelineTrace
    rw [h]
    rfl
  · intro h
    unfold pipelineTrace
    rw [h]
    rfl
  · intro h
    unfold pipelineTrace
    rw [h]
    rfl
  · intro s hq
    rw [parsePath_eq, applyDefaults_quality, hq]
    rfl
  · intro h
    unfold pipelineTrace
    rw [h]
    simp [List.mem_append]
  · intro h
    unfold pipelineTrace
    rw [h]
    simp [List.mem_append]
  · intro h
    unfold pipelineTrace
    rw [h]
    simp [List.mem_append]
  · intro h
    unfold pipelineTrace
    rw [h]
    simp [List.mem_append]

/-- C5 amended witness: malformed values under `width`, `quality` and
`contrast` store NaN; the NaN width leaves the trace as if unset, the
NaN quality defaults to 85, and the NaN contrast step runs. -/
theorem malformed_value_nan_behavior_witness :
    (applyTransformPair {} "width=abc").width = some JSNum.nan
    ∧ (applyTransformPair {} "quality=abc").quality = some JSNum.nan
    ∧ (applyTransformPair {} "contrast=xyz").contrast = some JSNum.nan
    ∧ pipelineTrace (parsePath "width=abc")
      = pipelineTrace { parsePath "width=abc" with width := none }
    ∧ (parsePath "quality=abc").quality = some (intToJS 85)
    ∧ ImageOp.contrast JSNum.nan ∈ pipelineTrace (parsePath "contrast=xyz") := by
  have hW := malformed_value_nan_behavior {} (parsePath "width=abc")
    "width=abc" "width" "abc" (by decide) (by decide) (by decide) (by decide)
  have hQ := malformed_value_nan_behavior {} (parsePath "quality=abc")
    "quality=abc" "quality" "abc" (by decide) (by decide) (by decide) (by decide)
  have hC := malformed_value_nan_behavior {} (parsePath "contrast=xyz")
    "contrast=xyz" "contrast" "xyz" (by decide) (by decide) (by decide) (by decide)
  exact ⟨hW.1 (Or.inl rfl),
    hQ.2.2.1 (Or.inl rfl),
    hC.2.2.2.2.2.1 rfl,
    hW.2.2.2.2.2.2.2.2.1 (by decide),
    hQ.2.2.2.2.2.2.2.2.2.2.2.1 "quality=abc" (by decide),
    hC.2.2.2.2.2.2.2.2.2.2.2.2.2.1 (by decide)⟩

/-- C6 counterexample: with the option string
`width=auto,width=100` the pairs parse to the explicit numeric width
100, yet the handler's resolved width is the responsive 1200 — the
responsive resolution overwrites the explicit width, not the other way
round. -/
theorem width_auto_cex :
    (foldPairs "width=auto,width=100").width = some (intToJS 100)
    ∧ (resolvedOptions "width=auto,width=100" none).width = some (intToJS 1200)
    ∧ intToJS 1200 ≠ intToJS 100 := by
  refine ⟨by decide, by decide, by decide⟩

/-- C6 amended: when the raw option string contains `width=auto`, the
resolved width is 320 for mobile-not-tablet user agents, 768 for tablet
user agents, 1200 otherwise — and it unconditionally overwrites any
explicitly parsed width; an explicit width governs only when
`width=auto` is absent from the string. -/
theorem width_auto_resolution (s : String) (ua : Option String) :
    (strContains s "width=auto" = true →
      (isMobileUA (ua.getD "") = true → isTabletUA (ua.getD "") = false →
        (resolvedOptions s ua).width = some (intToJS 320))
      ∧ (isTabletUA (ua.getD "") = true →
        (resolvedOptions s ua).width = some (intToJS 768))
      ∧ (isMobileUA (ua.getD "") = false → isTabletUA (ua.getD "") = false →
        (resolvedOptions s ua).width = some (intToJS 1200)))
    ∧ (strContains s "width=auto" = false →
      (resolvedOptions s ua).width = (parsePath s).width) := by
  constructor
  · intro hc
    unfold resolvedOptions
    rw [if_pos hc]
    refine ⟨fun hm ht => ?_, fun ht => ?_, fun hm ht => ?_⟩
    · simp [getResponsiveWidth, truthyO, hm, ht]
    · simp [getResponsiveWidth, truthyO, ht]
    · simp [getResponsiveWidth, truthyO, hm, ht]
  · intro hc
    unfold resolvedOptions
    rw [if_neg (by simp [hc])]

/-- C6 amended witness: concrete user agents hit all three buckets, and
a string without `width=auto` keeps its parsed width. -/
theorem width_auto_resolution_witness :
    (resolvedOptions "width=auto" (some "iPhone Mobile Safari")).width = some (intToJS 320)
    ∧ (resolvedOptions "width=auto" (some "iPad Safari")).width = some (intToJS 768)
    ∧ (resolvedOptions "width=auto" (some "Windows Desktop")).width = some (intToJS 1200)
    ∧ (resolvedOptions "width=50" none).width = (parsePath "width=50").width := by
  refine ⟨((width_auto_resolution "width=auto" (some "iPhone Mobile Safari")).1
      (by decide)).1 (by decide) (by decide),
    ((width_auto_resolution "width=auto" (some "iPad Safari")).1 (by decide)).2.1 (by decide),
    ((width_auto_resolution "width=auto" (some "Windows Desktop")).1
      (by decide)).2.2 (by decide) (by decide),
    (width_auto_resolution "width=50" none).2 (by decide)⟩

/-- C3: an explicit format in webp, avif, jpeg, png is used verbatim
regardless of the Accept header; `auto` negotiates avif, then webp,
then jpeg. -/
theorem format_negotiation_contract (f accept : String)
    (hf : f = "webp" ∨ f = "avif" ∨ f = "jpeg" ∨ f = "png") :
    outputFormat (some f) accept = some ("image/" ++ f)
    ∧ outputFormat (some "auto") accept =
      some (if strContains accept "image/avif" = true then "image/avif"
        else if strContains accept "image/webp" = true then "image/webp"
        else "image/jpeg") := by
  constructor
  · rcases hf with h | h | h | h <;> subst h <;> rfl
  · unfold outputFormat
    rw [if_pos rfl]
    by_cases h1 : strContains accept "image/avif" = true
    · rw [if_pos h1, if_pos h1]
    · rw [if_neg h1, if_neg h1]
      by_cases h2 : strContains accept "image/webp" = true
      · rw [if_pos h2, if_pos h2]
      · rw [if_neg h2, if_neg h2]

/-- C3 witness: `png` stays png even when the client prefers avif, and
`auto` negotiation picks webp when only webp is accepted. -/
theorem format_negotiation_contract_witness :
    outputFormat (some "png") "image/avif,image/webp" = some "image/png"
    ∧ outputFormat (some "auto") "text/html,image/webp" = some "image/webp" := by
  refine ⟨(format_negotiation_contract "png" "image/avif,image/webp"
      (Or.inr (Or.inr (Or.inr rfl)))).1, ?_⟩
  have h := (format_negotiation_contract "png" "text/html,image/webp"
    (Or.inr (Or.inr (Or.inr rfl)))).2
  rw [h]
  decide

/-- C7: the pipeline applies its operations in the fixed order resize,
blur, brightness, contrast, gamma, sharpen (as a sublist of that
sequence of kinds), each step skipped when its directive field is
unset; with neither width nor height set no resize step runs. -/
theorem pipeline_fixed_order (opts : ImageTransformOptions) :
    List.Sublist ((pipelineTrace opts).map kindOf)
      [OpKind.resizeK, OpKind.blurK, OpKind.brightnessK, OpKind.contrastK,
        OpKind.gammaK, OpKind.sharpenK]
    ∧ (opts.width = none → opts.height = none →
        ∀ op ∈ pipelineTrace opts, kindOf op ≠ OpKind.resizeK)
    ∧ (opts.blur = none → ∀ op ∈ pipelineTrace opts, kindOf op ≠ OpKind.blurK)
    ∧ (opts.brightness = none → ∀ op ∈ pipelineTrace opts, kindOf op ≠ OpKind.brightnessK)
    ∧ (opts.contrast = none → ∀ op ∈ pipelineTrace opts, kindOf op ≠ OpKind.contrastK)
    ∧ (opts.gamma = none → ∀ op ∈ pipelineTrace opts, kindOf op ≠ OpKind.gammaK)
    ∧ (opts.sharpen = none → ∀ op ∈ pipelineTrace opts, kindOf op ≠ OpKind.sharpenK) := by
  refine ⟨?_, ?_, ?_, ?_, ?_, ?_, ?_⟩
  · unfold pipelineTrace
    simp only [List.map_append, apply_ite (List.map kindOf), List.map_cons, List.map_nil,
      kindOf, List.append_assoc]
    exact sub_cons_of_ite _ _ (sub_cons_of_ite _ _ (sub_cons_of_ite _ _
      (sub_cons_of_ite _ _ (sub_cons_of_ite _ _ (ite_single_sub _ _)))))
  · intro h1 h2 op hop
    unfold pipelineTrace at hop
    rw [h1, h2] at hop
    simp only [List.mem_append] at hop
    rcases hop with ((((h | h) | h) | h) | h) | h <;>
      first
        | (simp [truthyO, truthyN] at h; done)
        | (have he := mem_ite_single h; subst he; simp [kindOf])
  · intro h1 op hop
    unfold pipelineTrace at hop
    rw [h1] at hop
    simp only [List.mem_append] at hop
    rcases hop with ((((h | h) | h) | h) | h) | h <;>
      first
        | (simp [truthyO, truthyN] at h; done)
        | (have he := mem_ite_single h; subst he; simp [kindOf])
  · intro h1 op hop
    unfold pipelineTrace at hop
    rw [h1] at hop
    simp only [List.mem_append] at hop
    rcases hop with ((((h | h) | h) | h) | h) | h <;>
      first
        | (simp [truthyO, truthyN] at h; done)
        | (have he := mem_ite_single h; subst he; simp [kindOf])
  · intro h1 op hop
    unfold pipelineTrace at hop
    rw [h1] at hop
    simp only [List.mem_append] at hop
    rcases hop with ((((h | h) | h) | h) | h) | h <;>
      first
        | (simp [truthyO, truthyN] at h; done)
        | (have he := mem_ite_single h; subst he; simp [kindOf])
  · intro h1 op hop
    unfold pipelineTrace at hop
    rw [h1] at hop
    simp only [List.mem_append] at hop
    rcases hop with ((((h | h) | h) | h) | h) | h <;>
      first
        | (simp [truthyO, truthyN] at h; done)
        | (have he := mem_ite_single h; subst he; simp [kindOf])
  · intro h1 op hop
    unfold pipelineTrace at hop
    rw [h1] at hop
    simp only [List.mem_append] at hop
    rcases hop with ((((h | h) | h) | h) | h) | h <;>
      first
        | (simp [truthyO, truthyN] at h; done)
        | (have he := mem_ite_single h; subst he; simp [kindOf])

/-- C7 witness: the trace of `width=100,blur=5` is resize before blur,
and the theorem's unset-field skips apply to it. -/
theorem pipeline_fixed_order_witness :
    List.Sublist ((pipelineTrace (parsePath "width=100,blur=5")).map kindOf)
      [OpKind.resizeK, OpKind.blurK, OpKind.brightnessK, OpKind.contrastK,
        OpKind.gammaK, OpKind.sharpenK]
    ∧ kindOf (ImageOp.blur (intToJS 5)) ≠ OpKind.brightnessK := by
  refine ⟨(pipeline_fixed_order (parsePath "width=100,blur=5")).1, ?_⟩
  exact (pipeline_fixed_order (parsePath "width=100,blur=5")).2.2.2.1 (by decide)
    (ImageOp.blur (intToJS 5)) (by decide)

/-- C2: an absent object at the primary fetch yields 404 immediately;
the response does not depend on the transform backend or on the
fallback re-fetch (the outcome is identical under any environment that
agrees on the primary fetch). -/
theorem notfound_immediate (env env2 : Env) (req : Request) (k : String)
    (hpath : req.imagePath = some k) (hk : k ≠ "")
    (h0 : env.r2get 0 k = FetchResult.absent)
    (h02 : env2.r2get 0 k = FetchResult.absent) :
    (handler env req).status = 404
    ∧ (handler env req).body = BodyTag.text "Image not found"
    ∧ handler env req = handler env2 req := by
  have hred : ∀ e : Env, e.r2get 0 k = FetchResult.absent →
      handler e req = { status := 404, headers := [], body := BodyTag.text "Image not found" } := by
    intro e he
    unfold handler
    rw [hpath]
    simp only []
    rw [if_neg hk, he]
  rw [hred env h0, hred env2 h02]
  exact ⟨rfl, rfl, rfl⟩

/-- C2 witness: a concrete absent key yields 404 regardless of the rest
of the environment. -/
theorem notfound_immediate_witness :
    (handler ⟨fun _ _ => FetchResult.absent, true, 200, []⟩
      ⟨some "width=100", some "missing.jpg", none, none, []⟩).status = 404
    ∧ handler ⟨fun _ _ => FetchResult.absent, true, 200, []⟩
        ⟨some "width=100", some "missing.jpg", none, none, []⟩
      = handler ⟨fun _ _ => FetchResult.absent, false, 500, [("X-Extra", "y")]⟩
        ⟨some "width=100", some "missing.jpg", none, none, []⟩ := by
  have h := notfound_immediate ⟨fun _ _ => FetchResult.absent, true, 200, []⟩
    ⟨fun _ _ => FetchResult.absent, false, 500, [("X-Extra", "y")]⟩
    ⟨some "width=100", some "missing.jpg", none, none, []⟩ "missing.jpg"
    rfl (by decide) rfl rfl
  exact ⟨h.1, h.2.2⟩

/-- C1: when the object is found but the transform/encode section
throws, the handler re-fetches the key; a successful re-fetch yields
200 with the original bytes, the one-hour cache header, and the
fallback marker; an absent or throwing re-fetch yields 500. -/
theorem transform_failure_fallback (env : Env) (req : Request) (k : String) (o : R2Object)
    (hpath : req.imagePath = some k) (hk : k ≠ "")
    (h0 : env.r2get 0 k = FetchResult.found o) (ht : env.imagesThrow = true) :
    (env.r2get 1 k = FetchResult.found o →
      (handler env req).status = 200
      ∧ (handler env req).body = BodyTag.bytes o.body
      ∧ hget (handler env req).headers "Cache-Control" = some "public, max-age=3600"
      ∧ hget (handler env req).headers "X-Fallback" = some "original-r2")
    ∧ (env.r2get 1 k = FetchResult.absent → (handler env req).status = 500)
    ∧ (env.r2get 1 k = FetchResult.error → (handler env req).status = 500) := by
  have hred : handler env req = fallbackResponse env req := by
    unfold handler
    rw [hpath]
    simp only []
    rw [if_neg hk, h0]
    simp only []
    rw [ht, if_pos rfl]
  refine ⟨?_, ?_, ?_⟩
  · intro h1
    have hfb : fallbackResponse env req =
        { status := 200
          headers := hset (hset o.httpMetadata "Cache-Control" "public, max-age=3600")
            "X-Fallback" "original-r2"
          body := BodyTag.bytes o.body } := by
      unfold fallbackResponse
      rw [hpath]
      simp only []
      rw [h1]
    rw [hred, hfb]
    refine ⟨rfl, rfl, ?_, ?_⟩
    · show hget (hset (hset o.httpMetadata "Cache-Control" "public, max-age=3600")
        "X-Fallback" "original-r2") "Cache-Control" = some "public, max-age=3600"
      rw [hget_hset_ne _ _ _ _ (by decide), hget_hset_self]
    · show hget (hset (hset o.httpMetadata "Cache-Control" "public, max-age=3600")
        "X-Fallback" "original-r2") "X-Fallback" = some "original-r2"
      rw [hget_hset_self]
  · intro h1
    rw [hred]
    unfold fallbackResponse
    rw [hpath]
    simp only []
    rw [h1]
  · intro h1
    rw [hred]
    unfold fallbackResponse
    rw [hpath]
    simp only []
    rw [h1]

/-- C1 witness: a stable store falls back to the original bytes with
200, and a store whose re-fetch comes back empty yields 500. -/
theorem transform_failure_fallback_witness :
    (handler ⟨fun _ _ => FetchResult.found ⟨"ORIG", [("Content-Type", "image/jpeg")]⟩,
        true, 200, []⟩
      ⟨some "width=100", some "img.jpg", none, none, []⟩).status = 200
    ∧ (handler ⟨fun _ _ => FetchResult.found ⟨"ORIG", [("Content-Type", "image/jpeg")]⟩,
        true, 200, []⟩
      ⟨some "width=100", some "img.jpg", none, none, []⟩).body = BodyTag.bytes "ORIG"
    ∧ hget (handler ⟨fun _ _ => FetchResult.found ⟨"ORIG", [("Content-Type", "image/jpeg")]⟩,
        true, 200, []⟩
      ⟨some "width=100", some "img.jpg", none, none, []⟩).headers "X-Fallback"
      = some "original-r2"
    ∧ (handler ⟨fun i _ => if i = 0 then FetchResult.found ⟨"ORIG", []⟩ else FetchResult.absent,
        true, 200, []⟩
      ⟨some "width=100", some "img.jpg", none, none, []⟩).status = 500 := by
  have hA := transform_failure_fallback
    ⟨fun _ _ => FetchResult.found ⟨"ORIG", [("Content-Type", "image/jpeg")]⟩, true, 200, []⟩
    ⟨some "width=100", some "img.jpg", none, none, []⟩ "img.jpg"
    ⟨"ORIG", [("Content-Type", "image/jpeg")]⟩ rfl (by decide) rfl rfl
  have hB := transform_failure_fallback
    ⟨fun i _ => if i = 0 then FetchResult.found ⟨"ORIG", []⟩ else FetchResult.absent,
      true, 200, []⟩
    ⟨some "width=100", some "img.jpg", none, none, []⟩ "img.jpg"
    ⟨"ORIG", []⟩ rfl (by decide) (by decide) rfl
  exact ⟨(hA.1 rfl).1, (hA.1 rfl).2.1, (hA.1 rfl).2.2.2, hB.2.1 (by decide)⟩

/-- C8: every successfully transformed response carries the day/year
cache-control header, the optimization marker, the JSON encoding of the
resolved directive, and the Accept/User-Agent Vary header. -/
theorem success_response_headers (env : Env) (req : Request) (k : String) (o : R2Object)
    (hpath : req.imagePath = some k) (hk : k ≠ "")
    (h0 : env.r2get 0 k = FetchResult.found o) (ht : env.imagesThrow = false) :
    hget (handler env req).headers "Cache-Control"
      = some "public, max-age=86400, s-maxage=31536000"
    ∧ hget (handler env req).headers "X-Image-Optimized" = some "true"
    ∧ hget (handler env req).headers "X-Transform-Options"
      = some (encodeOptions (resolvedOptions (req.optionsParam.getD "") req.userAgent))
    ∧ hget (handler env req).headers "Vary" = some "Accept, User-Agent" := by
  have hred : (handler env req).headers =
      hset (hset (hset (hset env.imagesRespHeaders
        "Cache-Control" "public, max-age=86400, s-maxage=31536000")
        "X-Image-Optimized" "true")
        "X-Transform-Options" (encodeOptions (resolvedOptions (req.optionsParam.getD "") req.userAgent)))
        "Vary" "Accept, User-Agent" := by
    unfold handler
    rw [hpath]
    simp only []
    rw [if_neg hk, h0]
    simp only []
    rw [ht, if_neg (by simp)]
  rw [hred]
  refine ⟨?_, ?_, ?_, ?_⟩
  · rw [hget_hset_ne _ _ _ _ (by decide), hget_hset_ne _ _ _ _ (by decide),
      hget_hset_ne _ _ _ _ (by decide), hget_hset_self]
  · rw [hget_hset_ne _ _ _ _ (by decide), hget_hset_ne _ _ _ _ (by decide), hget_hset_self]
  · rw [hget_hset_ne _ _ _ _ (by decide), hget_hset_self]
  · rw [hget_hset_self]

/-- C8 witness: a concrete successful transform carries all four
headers, the transform-options header echoing the resolved directive. -/
theorem success_response_headers_witness :
    hget (handler ⟨fun _ _ => FetchResult.found ⟨"ORIG", []⟩, false, 200, [("Content-Type", "image/avif")]⟩
      ⟨some "width=100", some "img.jpg", none, some "image/avif", []⟩).headers "Cache-Control"
      = some "public, max-age=86400, s-maxage=31536000"
    ∧ hget (handler ⟨fun _ _ => FetchResult.found ⟨"ORIG", []⟩, false, 200, [("Content-Type", "image/avif")]⟩
      ⟨some "width=100", some "img.jpg", none, some "image/avif", []⟩).headers "X-Image-Optimized"
      = some "true"
    ∧ hget (handler ⟨fun _ _ => FetchResult.found ⟨"ORIG", []⟩, false, 200, [("Content-Type", "image/avif")]⟩
      ⟨some "width=100", some "img.jpg", none, some "image/avif", []⟩).headers "X-Transform-Options"
      = some (encodeOptions (resolvedOptions "width=100" none))
    ∧ hget (handler ⟨fun _ _ => FetchResult.found ⟨"ORIG", []⟩, false, 200, [("Content-Type", "image/avif")]⟩
      ⟨some "width=100", some "img.jpg", none, some "image/avif", []⟩).headers "Vary"
      = some "Accept, User-Agent" := by
  exact success_response_headers
    ⟨fun _ _ => FetchResult.found ⟨"ORIG", []⟩, false, 200, [("Content-Type", "image/avif")]⟩
    ⟨some "width=100", some "img.jpg", none, some "image/avif", []⟩ "img.jpg" ⟨"ORIG", []⟩
    rfl (by decide) rfl rfl

end ImgWorker
